import Mathlib

/-!
Shallow embedding of `src/Nature_Poster_Videos.py` (DeviantArt-FBPoster
repository). The program fetches pages of candidate videos from a media
source, filters each candidate (extension, duplicate, size, duration,
content safety), posts the first acceptable one, edits its caption and
appends a log row to a local database.

External collaborators (HTTP, the social platform, the database cursor,
the JSON parser) are modelled as oracles packed into an `Env` record;
every piece of control flow of the Python file itself is translated
directly.  Python exceptions are modelled with the `PResult` type:
an uncaught exception aborts the run with a `raised` outcome.
-/

namespace NaturePoster

/-- Kinds of Python exceptions the embedded code can raise:
`typeError` models `float(None)` (missing content-length header) and
`None in <str>` (membership test with a non-string left operand);
`programmingError` models `sqlite3.ProgrammingError` (binding-count
mismatch in `cursor.execute`); `graphAPIError` models a failure raised
by `facebook.GraphAPI.put_object` while editing the caption. -/
inductive PyError where
  | typeError
  | programmingError
  | graphAPIError
deriving DecidableEq, Repr

/-- Result of running a piece of Python code: either a value or an
uncaught exception propagating out. -/
inductive PResult (α : Type) where
  | ok (val : α)
  | raised (e : PyError)
deriving DecidableEq, Repr

/-- JSON value shapes relevant to the `id` field of the Facebook
response: JSON `null` or a string. -/
inductive JsonVal where
  | null
  | str (s : String)
deriving DecidableEq, Repr

/-- The text returned by the Facebook video-post endpoint together with
the parsed value of its `id` key: `idValue` is the oracle for
`json.loads(raw).get('id')` (with `none` meaning the key is absent). -/
structure FBResponse where
  raw : String
  idValue : Option JsonVal
deriving DecidableEq, Repr

/-- One candidate video as returned by the media source (the attributes
read by `process_videos`): `url` is the permalink of the video page and
`link` the direct media URL. -/
structure Video where
  id : Nat
  description : String
  videographer : String
  url : String
  extension : String
  link : String
  duration : Nat
deriving DecidableEq, Repr

/-- The external world a run interacts with: the bad-word table, the
clock string, the `content-length` header returned by `requests.get`
per URL (`none` when the header is missing), the Facebook response per
posted link, and whether the caption edit for a given post id succeeds. -/
structure Env where
  badWords : List String
  now : String
  contentLength : String → Option Nat
  response : String → FBResponse
  annotateOk : String → Bool

/-- Python's `sub in s` on strings: contiguous substring test. -/
def pyInStr (sub s : String) : Bool :=
  decide (List.IsInfix sub.toList s.toList)

/-- Embeds `no_badwords` (lines 26-40): returns `true` when no entry of
the bad-word table is a member of the token list.  The loop
`for word in sentence: word.lower()` in the source discards its results
and is a no-op, so it has no counterpart here; the final line is
`not any(word in sentence for word in Bad_Words_List)`, an exact
list-membership test of each bad word against the token list. -/
def no_badwords (Bad_Words_List : List String) (sentence : List String) : Bool :=
  !(Bad_Words_List.any (fun word => sentence.contains word))

/-- Embeds `get_file_size` (lines 43-57): a full `requests.get` of the
URL, reading the `content-length` header and dividing by 1000.  When the
header is absent, `float(None)` raises `TypeError`.  The division is
the exact rational `n / 1000` (`Rat.divInt`). -/
def get_file_size (env : Env) (url : String) : PResult ℚ :=
  match env.contentLength url with
  | none => .raised .typeError
  | some n => .ok (Rat.divInt n 1000)

/-- The local list `extensions` of `acceptable_extension` (line 70). -/
def extensions : List String := ["mp4", "mov", "wmv", "avi"]

/-- Embeds `acceptable_extension` (lines 60-71): the source evaluates
`any(extensions in video_extension for extensions in extensions)`,
i.e. whether some allowed extension occurs as a substring (Python `in`
on strings) of the candidate extension — not exact membership. -/
def acceptable_extension (video_extension : String) : Bool :=
  extensions.any (fun e => pyInStr e video_extension)

/-- Embeds `get_post_id_from_json` (lines 93-108): `dict.get('id')`
followed by a truthiness test, so an absent key, a JSON `null` and an
empty string all yield `None`. -/
def get_post_id_from_json (request : FBResponse) : Option String :=
  match request.idValue with
  | none => none
  | some .null => none
  | some (.str s) => if s.isEmpty then none else some s

/-- Embeds `id_is_in_db` (lines 136-152) for the logged-posts table:
the `SELECT` returns a non-empty list exactly when the id occurs in the
table, modelled as membership in the list of stored IDs. -/
def id_is_in_db (table_ids : List String) (id_string : String) : Bool :=
  table_ids.contains id_string

/-- A value bound into the SQL insert: Python `str` or `float`. -/
inductive PyVal where
  | pstr (s : String)
  | pfloat (q : ℚ)
deriving DecidableEq, Repr

/-- The SQL text of `log_to_DB` (line 174), kept verbatim so that the
number of `?` placeholders is computed from the source string. -/
def insert_sql : String :=
  "INSERT INTO Nature_Bot_Logged_FB_Posts VALUES (?, ?, ?, ?, ?, ?, ?, ?, ?, ?)"

/-- Embeds `log_to_DB` (lines 168-174): `cursor.execute` raises
`sqlite3.ProgrammingError` when the number of supplied bindings differs
from the number of `?` parameters in the statement; otherwise the row
is appended. -/
def log_to_DB (formatted_tuple : List PyVal) : PResult (List PyVal) :=
  if formatted_tuple.length = insert_sql.toList.count '?' then .ok formatted_tuple
  else .raised .programmingError

/-- The tuple built at lines 232-236: timestamp, raw response text,
description, videographer, source id, permalink (`video_permalink`,
which the source binds to `video.url`), `video.url` again, the media
link, and the computed file size. -/
def data_tuple (env : Env) (video : Video) (resp : FBResponse) (size : ℚ) : List PyVal :=
  [.pstr env.now, .pstr resp.raw, .pstr video.description, .pstr video.videographer,
   .pstr (toString video.id), .pstr video.url, .pstr video.url, .pstr video.link,
   .pfloat size]

/-- Python `str.lower()` (ASCII case folding, which covers the
descriptions handled here), character by character. -/
def pyLower (s : String) : String :=
  ⟨s.data.map Char.toLower⟩

/-- Splitting a character list at every occurrence of `sep`, keeping
empty segments, exactly as Python `str.split(sep)` does for a
one-character separator. -/
def splitCharList (sep : Char) : List Char → List (List Char)
  | [] => [[]]
  | c :: rest =>
    if c = sep then [] :: splitCharList sep rest
    else
      match splitCharList sep rest with
      | [] => [[c]]
      | t :: ts => (c :: t) :: ts

/-- Python `s.split(" ")`: split on every single space character. -/
def pySplitSpace (s : String) : List String :=
  (splitCharList ' ' s.data).map (fun cs => ⟨cs⟩)

/-- Reasons a candidate is skipped by the `continue` chain of
`process_videos` (lines 198-213). -/
inductive Reason where
  | badExtension
  | duplicate
  | tooLarge
  | tooLong
  | unsafeContent
deriving DecidableEq, Repr

/-- The filter chain of `process_videos` (lines 198-213) as a total
decision function, in source order: extension, duplicate check, size
bound (`>= 1_000_000` on the kilobyte size), duration bound (`>= 1200`),
then the bad-word check on `video_description.lower().split(" ")`.
Returns the reason of the first failing rule, `none` when the candidate
reaches the posting code. -/
def videoRejectReason (badWords db : List String) (video_file_size : ℚ) (video : Video) :
    Option Reason :=
  if !(acceptable_extension video.extension) then some .badExtension
  else if id_is_in_db db (toString video.id) then some .duplicate
  else if video_file_size ≥ 1000000 then some .tooLarge
  else if video.duration ≥ 1200 then some .tooLong
  else if !(no_badwords badWords (pySplitSpace (pyLower video.description))) then
    some .unsafeContent
  else none

/-- Observable effects of one call to `process_videos`: how many times
`post_to_fb` ran and which rows `log_to_DB` appended. -/
structure RunTrace where
  publishCalls : Nat
  logs : List (List PyVal)
deriving DecidableEq, Repr

/-- Outcome of `process_videos`: its effects plus either the returned
`data_to_log` value (`[]` when nothing was posted, the logged row after
a successful post) or an uncaught exception. -/
structure RunOutcome where
  trace : RunTrace
  result : PResult (List PyVal)
deriving DecidableEq, Repr

/-- Embeds `process_videos` (lines 177-247).  For each video the size
probe runs first (line 196) and its `TypeError` aborts the run; then the
`continue` chain; then `post_to_fb` is called and the post id extracted.
When the id is `None`, the test `fb_post_id in post_to_fb_request`
raises `TypeError` (`in <string>` needs a string left operand).  When
the id is a string absent from the raw text, `successful_post` is false
and the loop continues.  Otherwise the caption edit runs (its failure
raises out of the run), `data_to_log` is built and `log_to_DB` executes;
on success the loop breaks and the row is returned. -/
def processVideos (env : Env) (db : List String) : List Video → RunOutcome
  | [] => ⟨⟨0, []⟩, .ok []⟩
  | video :: rest =>
    match get_file_size env video.url with
    | .raised e => ⟨⟨0, []⟩, .raised e⟩
    | .ok video_file_size =>
      match videoRejectReason env.badWords db video_file_size video with
      | some _ => processVideos env db rest
      | none =>
        let post_to_fb_request := env.response video.link
        match get_post_id_from_json post_to_fb_request with
        | none => ⟨⟨1, []⟩, .raised .typeError⟩
        | some fb_post_id =>
          if !(pyInStr fb_post_id post_to_fb_request.raw) then
            let o := processVideos env db rest
            ⟨⟨o.trace.publishCalls + 1, o.trace.logs⟩, o.result⟩
          else if !(env.annotateOk fb_post_id) then ⟨⟨1, []⟩, .raised .graphAPIError⟩
          else
            match log_to_DB (data_tuple env video post_to_fb_request video_file_size) with
            | .raised e => ⟨⟨1, []⟩, .raised e⟩
            | .ok row => ⟨⟨1, [row]⟩, .ok row⟩

/-- State of the paginated media source (spec section 6): the successive
pages the source can serve and the index of the current page. -/
structure PexelsState where
  pages : List (List Video)
  cursor : Nat
deriving DecidableEq, Repr

/-- The entries of the current page (`api.get_video_entries()`); an
exhausted source serves the empty page. -/
def get_video_entries (s : PexelsState) : List Video :=
  s.pages.getD s.cursor []

/-- `api.search_next_page()`: advances to the next page when one exists
and otherwise leaves the state unchanged (the library returns `False`
without changing its current page, a return value `main` ignores). -/
def search_next_page (s : PexelsState) : PexelsState :=
  if s.cursor + 1 < s.pages.length then { s with cursor := s.cursor + 1 } else s

/-- Embeds the driver loop of `main` (lines 270-274):
`done = process_videos(...)`, looping (and requesting the next page)
while `done` is falsy.  `fuel` bounds how many iterations we observe;
`none` means the loop has not terminated within `fuel` iterations.  An
uncaught exception inside `process_videos` aborts the loop. -/
def mainLoop (env : Env) (db : List String) : Nat → PexelsState → Option RunOutcome
  | 0, _ => none
  | fuel + 1, s =>
    let outcome := processVideos env db (get_video_entries s)
    match outcome.result with
    | .raised _ => some outcome
    | .ok data_to_log =>
      if data_to_log.isEmpty then mainLoop env db fuel (search_next_page s)
      else some outcome

/-- The driver loop never terminates from state `s`, whatever the
observation bound. -/
def loopsForever (env : Env) (db : List String) (s : PexelsState) : Prop :=
  ∀ fuel, mainLoop env db fuel s = none

/-! Concrete fixtures used by the witnesses and counterexamples. -/

/-- A candidate that passes every filter rule. -/
def vGood : Video :=
  ⟨101, "a soaring eagle", "alice", "https://pexels.example/video/101", "mp4",
   "https://media.example/101.mp4", 30⟩

/-- A candidate whose extension contains no allowed extension. -/
def vBadExt : Video :=
  ⟨100, "a quiet forest", "bob", "https://pexels.example/video/100", "gif",
   "https://media.example/100.gif", 30⟩

/-- A candidate whose source id is already logged in the fixture store. -/
def vDup : Video :=
  ⟨202, "a river at dawn", "carol", "https://pexels.example/video/202", "mp4",
   "https://media.example/202.mp4", 30⟩

/-- A Facebook response holding a usable post id. -/
def respOk : FBResponse := ⟨"\x7b\"id\": \"9876\"\x7d", some (.str "9876")⟩

/-- A Facebook response with no `id` key (an error payload). -/
def respNoId : FBResponse := ⟨"\x7b\"error\": \"bad request\"\x7d", none⟩

/-- Fixture store: the id of `vDup` is already logged. -/
def dbOne : List String := ["202"]

/-- Environment where every remote call succeeds: all URLs report a
500 MB content length, posting returns `respOk`, caption edits work. -/
def envHappy : Env :=
  ⟨["kill"], "01/01/2026 00:00:00", fun _ => some 500000000, fun _ => respOk, fun _ => true⟩

/-- A candidate whose extension `"xmp4"` is not a member of the allowed
set yet contains `"mp4"` as a substring, and passes every other rule. -/
def vSuperExt : Video :=
  ⟨303, "calm ocean waves", "dana", "https://pexels.example/video/303", "xmp4",
   "https://media.example/303.xmp4", 30⟩

/-- Candidate with description `"a Lovely Eagle soaring"`. -/
def vLovely : Video :=
  ⟨401, "a Lovely Eagle soaring", "eve", "https://pexels.example/video/401", "mp4",
   "https://media.example/401.mp4", 30⟩

/-- Candidate with description `"A LOVELY eagle"`. -/
def vShout : Video :=
  ⟨402, "A LOVELY eagle", "frank", "https://pexels.example/video/402", "mp4",
   "https://media.example/402.mp4", 30⟩

/-- C10: `get_post_id_from_json` returns `none` exactly when the parsed
`id` value is falsy — the key is absent, its value is JSON `null`, or it
is the empty string; when it does return an identifier, that identifier
is the non-empty string stored under `id`, so an empty-string post id is
never returned as a valid handle. -/
theorem get_post_id_none_iff_falsy :
    ∀ resp : FBResponse,
      (get_post_id_from_json resp = none ↔
        resp.idValue = none ∨ resp.idValue = some .null ∨ resp.idValue = some (.str "")) ∧
      (∀ s, get_post_id_from_json resp = some s → resp.idValue = some (.str s) ∧ s ≠ "") := by
  intro resp
  rcases resp with ⟨raw, _ | (_ | s)⟩
  · simp [get_post_id_from_json]
  · simp [get_post_id_from_json]
  · by_cases h : s = ""
    · subst h
      simp [get_post_id_from_json, show "".isEmpty = true from rfl]
    · have hne : s.isEmpty = false := by
        rcases hb : s.isEmpty with _ | _
        · rfl
        · exact absurd ((String.isEmpty_iff s).mp hb) h
      constructor
      · simp [get_post_id_from_json, hne, h]
      · intro t ht
        simp only [get_post_id_from_json, hne, Bool.false_eq_true, if_false,
          Option.some.injEq] at ht
        subst ht
        exact ⟨rfl, h⟩

/-- C10 witness: a response carrying id `"9"` yields that identifier,
which is stored under `id` and non-empty. -/
theorem get_post_id_none_iff_falsy_witness :
    (FBResponse.mk "r" (some (.str "9"))).idValue = some (.str "9") ∧ "9" ≠ "" :=
  (get_post_id_none_iff_falsy ⟨"r", some (.str "9")⟩).2 "9" (by decide)

/-- C3 counterexample: the extension `"xmp4"` is not a member of the
allowed set, yet `acceptable_extension` accepts it — the source tests
`extensions in video_extension`, a substring check — so a candidate with
that extension sails through the whole filter instead of being rejected
with bad-extension. -/
theorem extension_substring_passes_filter :
    acceptable_extension "xmp4" = true ∧ ¬ ("xmp4" ∈ extensions) ∧
      videoRejectReason [] [] 0 vSuperExt = none := by decide

/-- C3 (amended): the extension rule passes a candidate exactly when
some element of the allowed set occurs case-sensitively as a substring
of its extension; whenever no allowed extension occurs as a substring,
the filter rejects with bad-extension regardless of other attributes. -/
theorem extension_rule_is_substring_match :
    (∀ ext : String, acceptable_extension ext = true ↔
        ∃ e ∈ extensions, List.IsInfix e.toList ext.toList) ∧
    (∀ (bw db : List String) (size : ℚ) (v : Video),
        acceptable_extension v.extension = false →
        videoRejectReason bw db size v = some .badExtension) := by
  constructor
  · intro ext
    simp [acceptable_extension, pyInStr, List.any_eq_true]
  · intro bw db size v h
    simp [videoRejectReason, h]

/-- C3 witness: `"mp4"` itself passes the rule, and a candidate whose
extension `"gif"` contains no allowed extension is rejected with
bad-extension. -/
theorem extension_rule_is_substring_match_witness :
    acceptable_extension "mp4" = true ∧
      videoRejectReason [] [] 0 vBadExt = some .badExtension :=
  ⟨(extension_rule_is_substring_match.1 "mp4").mpr (by decide),
   extension_rule_is_substring_match.2 [] [] 0 vBadExt (by decide)⟩

/-- C7: the content-safety check fails exactly when some entry of the
bad-word table equals one of the tokens of the lower-cased description
split on spaces (exact token match, only the candidate side folded):
`"a Lovely Eagle soaring"` against `{"lovely"}` is rejected with
unsafe-content, `"A LOVELY eagle"` against `{"LOVELY"}` is accepted, and
a bad word occurring only inside a longer token does not match. -/
theorem badword_check_exact_token_case_asymmetric :
    (∀ (bw : List String) (desc : String),
        no_badwords bw (pySplitSpace (pyLower desc)) = false ↔
          ∃ w ∈ bw, w ∈ pySplitSpace (pyLower desc)) ∧
    videoRejectReason ["lovely"] [] 0 vLovely = some .unsafeContent ∧
    videoRejectReason ["LOVELY"] [] 0 vShout = none ∧
    no_badwords ["lovely"] (pySplitSpace (pyLower "a lovelybird sings")) = true := by
  refine ⟨?_, by decide, by decide, by decide⟩
  intro bw desc
  simp [no_badwords, List.any_eq_true, List.elem_iff]

/-- C9: with the other rules passing, the bounds are strict — computed
size exactly 1000000 (the configured maximum, in the kilobyte unit of
`get_file_size`) is rejected as too large while 999999 passes, and
duration exactly 1200 is rejected as too long while 1199 passes. -/
theorem size_and_duration_bounds_strict :
    ∀ (bw db : List String) (v : Video) (size : ℚ),
      acceptable_extension v.extension = true →
      id_is_in_db db (toString v.id) = false →
      no_badwords bw (pySplitSpace (pyLower v.description)) = true →
      videoRejectReason bw db 1000000 v = some .tooLarge ∧
      (v.duration < 1200 → videoRejectReason bw db 999999 v = none) ∧
      (size < 1000000 →
        videoRejectReason bw db size { v with duration := 1200 } = some .tooLong) ∧
      (size < 1000000 →
        videoRejectReason bw db size { v with duration := 1199 } = none) := by
  intro bw db v size hext hdb hbw
  have hsz : ¬ ((999999 : ℚ) ≥ 1000000) := by norm_num
  refine ⟨?_, ?_, ?_, ?_⟩
  · simp [videoRejectReason, hext, hdb, le_refl]
  · intro hd
    simp [videoRejectReason, hext, hdb, hbw, hsz, Nat.not_le.mpr hd]
  · intro hs
    simp [videoRejectReason, hext, hdb, not_le.mpr hs, le_refl]
  · intro hs
    have hd : ¬ ((1199 : Nat) ≥ 1200) := by norm_num
    simp [videoRejectReason, hext, hdb, hbw, not_le.mpr hs, hd]

/-- C9 witness: the four boundary outcomes at a concrete candidate that
passes every other rule. -/
theorem size_and_duration_bounds_strict_witness :
    videoRejectReason ["kill"] dbOne 1000000 vGood = some .tooLarge ∧
    videoRejectReason ["kill"] dbOne 999999 vGood = none ∧
    videoRejectReason ["kill"] dbOne 500000 { vGood with duration := 1200 } = some .tooLong ∧
    videoRejectReason ["kill"] dbOne 500000 { vGood with duration := 1199 } = none := by
  have h := size_and_duration_bounds_strict ["kill"] dbOne vGood 500000
    (by decide) (by decide) (by decide)
  exact ⟨h.1, h.2.1 (by decide), h.2.2.1 (by decide), h.2.2.2 (by decide)⟩

/-- The tuple built for the log row always has 9 entries while the
`INSERT` statement of `log_to_DB` has 10 `?` parameters, so the execute
call always raises `sqlite3.ProgrammingError`. -/
theorem log_to_DB_data_tuple_raises (env : Env) (video : Video) (resp : FBResponse) (size : ℚ) :
    log_to_DB (data_tuple env video resp size) = .raised .programmingError := rfl

/-- No call to `process_videos` ever commits a log row: every path that
reaches `log_to_DB` raises on the binding-count mismatch first. -/
theorem processVideos_logs_eq_nil (env : Env) (db : List String) :
    ∀ videos : List Video, (processVideos env db videos).trace.logs = [] := by
  intro videos
  induction videos with
  | nil => rfl
  | cons video rest ih =>
    rw [processVideos]
    split
    · rfl
    · split
      · exact ih
      · dsimp only
        split
        · rfl
        · split
          · simpa using ih
          · split
            · rfl
            · split
              · rfl
              · rename_i heq
                rw [log_to_DB_data_tuple_raises] at heq
                cases heq

/-- The source id stored in a log row (position 4 of the tuple). -/
def rowSourceId (row : List PyVal) : String :=
  match row.getD 4 (.pstr "") with
  | .pstr s => s
  | .pfloat _ => ""

/-- C2: a candidate whose source id is already in the logged-posts table
is rejected as a duplicate by the filter chain (the duplicate check at
line 201 runs right after the extension check and before any posting),
and consequently a run started on a store with pairwise-distinct source
ids leaves the stored ids pairwise distinct. -/
theorem duplicate_rejected_and_ids_stay_distinct :
    (∀ (bw db : List String) (size : ℚ) (v : Video),
        acceptable_extension v.extension = true →
        id_is_in_db db (toString v.id) = true →
        videoRejectReason bw db size v = some .duplicate) ∧
    (∀ (env : Env) (db : List String) (videos : List Video),
        db.Nodup →
        (db ++ (processVideos env db videos).trace.logs.map rowSourceId).Nodup) := by
  constructor
  · intro bw db size v hext hdup
    simp [videoRejectReason, hext, hdup]
  · intro env db videos h
    rw [processVideos_logs_eq_nil]
    simpa using h

/-- C2 witness: the fixture duplicate candidate is rejected as a
duplicate, and the fixture run leaves the stored ids distinct. -/
theorem duplicate_rejected_and_ids_stay_distinct_witness :
    videoRejectReason ["kill"] dbOne 500000 vDup = some .duplicate ∧
    (dbOne ++
      (processVideos envHappy dbOne [vBadExt, vDup, vGood]).trace.logs.map rowSourceId).Nodup :=
  ⟨duplicate_rejected_and_ids_stay_distinct.1 ["kill"] dbOne 500000 vDup (by decide) (by decide),
   duplicate_rejected_and_ids_stay_distinct.2 envHappy dbOne [vBadExt, vDup, vGood] (by decide)⟩

/-- Environment in which the direct media link of `vGood` reports a
content length but its permalink page does not. -/
def envNoLength : Env :=
  ⟨[], "01/01/2026 00:00:00",
   fun u => if u = vGood.link then some 1000 else none,
   fun _ => respOk, fun _ => true⟩

/-- C6 counterexample: even though the candidate's direct media URL
reports a content length, the run probes the permalink (`video.url`),
finds no `content-length` header there, and `float(None)` raises an
uncaught `TypeError` — the run crashes instead of skipping the
candidate. -/
theorem size_probe_permalink_crash :
    envNoLength.contentLength vGood.link = some 1000 ∧
    envNoLength.contentLength vGood.url = none ∧
    processVideos envNoLength [] [vGood] = ⟨⟨0, []⟩, .raised .typeError⟩ := by decide

/-- C6 (amended): the byte size comes from a full `requests.get` of the
candidate's permalink `video.url` (not a HEAD of the media link); when
that response carries a `content-length` of `n` bytes the size is
`n / 1000`, and when the header is missing the run raises an uncaught
`TypeError` before any filter rule runs — the candidate is never
silently accepted, but the run crashes rather than skipping it. -/
theorem size_probe_full_get_on_permalink :
    ∀ (env : Env) (db : List String) (v : Video) (rest : List Video),
      (env.contentLength v.url = none →
        processVideos env db (v :: rest) = ⟨⟨0, []⟩, .raised .typeError⟩) ∧
      (∀ n : Nat, env.contentLength v.url = some n →
        get_file_size env v.url = .ok ((n : ℚ) / 1000)) := by
  intro env db v rest
  constructor
  · intro h
    have hfs : get_file_size env v.url = .raised .typeError := by
      simp [get_file_size, h]
    rw [processVideos, hfs]
  · intro n h
    simp [get_file_size, h, Rat.divInt_eq_div]

/-- C6 witness: the crash at the fixture candidate whose permalink has
no content length, and the size computed for the happy-path fixture. -/
theorem size_probe_full_get_on_permalink_witness :
    processVideos envNoLength [] [vGood] = ⟨⟨0, []⟩, .raised .typeError⟩ ∧
    get_file_size envHappy vGood.url = .ok (((500000000 : Nat) : ℚ) / 1000) :=
  ⟨(size_probe_full_get_on_permalink envNoLength [] vGood []).1 (by decide),
   (size_probe_full_get_on_permalink envHappy [] vGood []).2 500000000 (by decide)⟩

/-- Environment where posting succeeds but every caption edit fails. -/
def envAnnotateFail : Env :=
  ⟨["kill"], "01/01/2026 00:00:00", fun _ => some 500000000, fun _ => respOk, fun _ => false⟩

/-- C8 counterexample: the publish succeeds (one `post_to_fb` call, a
valid post id) but `edit_fb_post_caption` raises; the exception
propagates out of `process_videos` before `log_to_DB` runs, so no record
is logged and the run does not complete. -/
theorem annotate_failure_aborts_before_log :
    processVideos envAnnotateFail [] [vGood] = ⟨⟨1, []⟩, .raised .graphAPIError⟩ := by decide

/-- C8 (amended): when a candidate passes the filter, the publish yields
a usable post id, and the caption edit fails, the already-performed
publish is not unwound (the publish call stays counted) but the run
aborts with the caption-edit exception before any log write. -/
theorem annotate_failure_propagates :
    ∀ (env : Env) (db : List String) (v : Video) (rest : List Video) (size : ℚ) (pid : String),
      get_file_size env v.url = .ok size →
      videoRejectReason env.badWords db size v = none →
      get_post_id_from_json (env.response v.link) = some pid →
      pyInStr pid (env.response v.link).raw = true →
      env.annotateOk pid = false →
      processVideos env db (v :: rest) = ⟨⟨1, []⟩, .raised .graphAPIError⟩ := by
  intro env db v rest size pid hfs hrej hid hin hann
  rw [processVideos, hfs]
  simp [hrej, hid, hin, hann]

/-- C8 witness: the amended behavior at the fixture environment whose
caption edits always fail. -/
theorem annotate_failure_propagates_witness :
    processVideos envAnnotateFail dbOne [vGood] = ⟨⟨1, []⟩, .raised .graphAPIError⟩ :=
  annotate_failure_propagates envAnnotateFail dbOne vGood [] (Rat.divInt 500000000 1000) "9876"
    (by decide) (by decide) (by decide) (by decide) (by decide)

/-- Environment whose posting endpoint answers with an error payload
carrying no `id` key. -/
def envNoId : Env :=
  ⟨["kill"], "01/01/2026 00:00:00", fun _ => some 500000000, fun _ => respNoId, fun _ => true⟩

/-- C4: when the publish response lacks a usable post id,
`get_post_id_from_json` returns `None`, and the success test
`fb_post_id in post_to_fb_request` then raises `TypeError` (`in` on a
string needs a string left operand) — the run crashes instead of
continuing to the next candidate. -/
theorem missing_post_id_raises_type_error :
    get_post_id_from_json respNoId = none ∧
    processVideos envNoId [] [vGood] = ⟨⟨1, []⟩, .raised .typeError⟩ := by decide

/-- C1: on the spec's happy-path page (bad-extension reject, duplicate
reject, then a fully acceptable candidate with a valid publish
response), the run performs exactly one publish call but then crashes:
the log tuple has 9 values while the `INSERT` statement has 10 `?`
parameters, so `log_to_DB` raises `sqlite3.ProgrammingError` — no log
record is written, and the driver loop stops with the exception rather
than with a committed record. -/
theorem happy_path_crashes_at_log_insert :
    processVideos envHappy dbOne [vBadExt, vDup, vGood] =
      ⟨⟨1, []⟩, .raised .programmingError⟩ ∧
    mainLoop envHappy dbOne 5 ⟨[[vBadExt, vDup, vGood]], 0⟩ =
      some ⟨⟨1, []⟩, .raised .programmingError⟩ ∧
    (data_tuple envHappy vGood respOk (Rat.divInt 500000000 1000)).length = 9 ∧
    insert_sql.toList.count '?' = 10 := by decide

/-- One driver-loop iteration on a page whose processing returns the
empty (falsy) `data_to_log` just moves on to the next page. -/
theorem mainLoop_succ_of_empty (env : Env) (db : List String) (s : PexelsState) (m : Nat)
    (hres : (processVideos env db (get_video_entries s)).result = .ok []) :
    mainLoop env db (m + 1) s = mainLoop env db m (search_next_page s) := by
  rw [mainLoop, hres]
  rfl

/-- When the current page is processed to an empty result and
`search_next_page` no longer advances the state, the driver loop never
terminates. -/
theorem mainLoop_none_of_fixed (env : Env) (db : List String) (s : PexelsState)
    (hres : (processVideos env db (get_video_entries s)).result = .ok [])
    (hfix : search_next_page s = s) :
    ∀ fuel, mainLoop env db fuel s = none := by
  intro fuel
  induction fuel with
  | zero => rfl
  | succ n ih =>
    rw [mainLoop_succ_of_empty env db s n hres, hfix]
    exact ih

/-- Media source serving two pages with no acceptable candidate and then
a final empty page — the exhaustion scenario of the spec. -/
def pagesNoAccept : List (List Video) := [[vBadExt], [vDup], []]

/-- C5 counterexample: with a source serving two non-accepted pages and
then a final empty page, the driver loop of `main` never terminates —
`process_videos` keeps returning the falsy `[]`, `done` stays false, and
after exhaustion `search_next_page` leaves the state unchanged, so
`while not done` spins forever instead of ending with an empty result. -/
theorem exhausted_source_loops_forever :
    loopsForever envHappy dbOne ⟨pagesNoAccept, 0⟩ := by
  intro fuel
  match fuel with
  | 0 => rfl
  | n + 1 =>
    rw [mainLoop_succ_of_empty envHappy dbOne ⟨pagesNoAccept, 0⟩ n (by decide),
      show search_next_page ⟨pagesNoAccept, 0⟩ = ⟨pagesNoAccept, 1⟩ from by decide]
    match n with
    | 0 => rfl
    | m + 1 =>
      rw [mainLoop_succ_of_empty envHappy dbOne ⟨pagesNoAccept, 1⟩ m (by decide),
        show search_next_page ⟨pagesNoAccept, 1⟩ = ⟨pagesNoAccept, 2⟩ from by decide]
      exact mainLoop_none_of_fixed envHappy dbOne ⟨pagesNoAccept, 2⟩ (by decide) (by decide) m

/-- C5 (amended): once the source is exhausted (no next page) and the
current page yields no accepted candidate, the run does not terminate at
all: the loop keeps re-processing the same final page forever.  The run
only ever ends through a successful publish-and-log or an uncaught
exception. -/
theorem exhaustion_never_terminates :
    ∀ (env : Env) (db : List String) (s : PexelsState),
      (processVideos env db (get_video_entries s)).result = .ok [] →
      ¬ (s.cursor + 1 < s.pages.length) →
      loopsForever env db s := by
  intro env db s hres hlast
  exact mainLoop_none_of_fixed env db s hres (by simp [search_next_page, hlast])

/-- C5 witness: the non-termination theorem applied to the exhausted
fixture state, observed for 7 iterations. -/
theorem exhaustion_never_terminates_witness :
    mainLoop envHappy dbOne 7 ⟨pagesNoAccept, 2⟩ = none :=
  exhaustion_never_terminates envHappy dbOne ⟨pagesNoAccept, 2⟩ (by decide) (by decide) 7

end NaturePoster
